import Mathlib

/-!
Verification of the `accepter` package (`accepter.go`): a connection-acceptance
and lifecycle-control layer over a `net.Listener`.

The Go code is shallowly embedded.  Concurrency and the external environment
(the listener, the handler, the Go scheduler) are resolved into explicit input
traces: the accept loop consumes a list of accept outcomes, the shutdown drain
loop consumes a list of poll observations, and each function additionally
emits the list of externally visible effects (context cancellations, listener
and connection closes, registry mutations, handler dispatches, sleeps) in the
order the Go statements perform them.
-/

namespace Accepter

/-- An abstract non-nil Go `error` value.  `isNetError` records whether the
type assertion `err.(net.Error)` succeeds, and `temporary` the result of
`ne.Temporary()` when it does. -/
structure GoErr where
  id : Nat
  isNetError : Bool
  temporary : Bool
deriving DecidableEq, Repr

/-- The classification used by `Serve`'s accept loop:
`if ne, ok := err.(net.Error); ok && ne.Temporary()`. -/
def GoErr.classifiedTemporary (e : GoErr) : Bool :=
  e.isNetError && e.temporary

/-- An externally visible effect, in Go-statement order. -/
inductive Effect where
  /-- `a.ctxCancel()` on the root context. -/
  | ctxCancel
  /-- `a.lis.Close()`. -/
  | lisClose
  /-- `Close()` on the underlying handle of connection `c`. -/
  | connClose (c : Nat)
  /-- Registry insert: `a.connDatas[conn] = connData{...}`. -/
  | regInsert (c : Nat)
  /-- Registry remove: `delete(a.connDatas, conn)`. -/
  | regRemove (c : Nat)
  /-- `a.Handler.Serve(ctx, conn)` for connection `c`. -/
  | handlerServe (c : Nat)
  /-- `go a.serve(conn)`: a worker goroutine is spawned for connection `c`. -/
  | spawnWorker (c : Nat)
  /-- `context.WithCancel(a.ctx)` creating connection `c`'s derived scope. -/
  | childCtxNew (c : Nat)
  /-- The deferred `cancel()` of connection `c`'s derived scope. -/
  | childCtxCancel (c : Nat)
  /-- A sleep / timer wait of `n` milliseconds (`time.Sleep`, `time.After`). -/
  | sleepMs (n : Nat)
deriving DecidableEq, Repr

/-- One iteration's outcome of `lis.Accept()` inside `Serve`, together with
the state the `select { case <-a.ctx.Done(): ... default: }` check observes
when the accept failed (`ctxDone = true` iff the root context is already
cancelled at that moment). -/
inductive AcceptStep where
  | conn (c : Nat)
  | fail (ctxDone : Bool) (e : GoErr)
deriving DecidableEq, Repr

/-- The result of a loop or function that may still be running: `none` means
the input trace was exhausted with the Go code still blocked (it never
returned), `some r` means it returned `r` (`r = none` being a nil error). -/
abbrev RunResult := Option (Option GoErr)

/-- The `for` loop of `Serve` (accepter.go, lines 123–142), one trace entry
per `lis.Accept()` call.  On a connection, `go a.serve(conn)` is spawned and
the loop continues; on a failure with the root context done, the error is
replaced by nil and the loop returns; on a failure classified temporary,
`time.Sleep(5 * time.Millisecond)` and retry; any other failure is returned. -/
def serveLoop : List AcceptStep → List Effect × RunResult
  | [] => ([], none)
  | AcceptStep.conn c :: rest =>
      (Effect.spawnWorker c :: (serveLoop rest).1, (serveLoop rest).2)
  | AcceptStep.fail ctxDone e :: rest =>
      if ctxDone then ([], some none)
      else if e.classifiedTemporary then
        (Effect.sleepMs 5 :: (serveLoop rest).1, (serveLoop rest).2)
      else ([], some (some e))

/-- `Serve(lis)` (accepter.go, lines 119–143): stores the listener, installs a
fresh root context, initialises an empty registry, runs the accept loop, and
on return runs the deferred `a.ctxCancel()` and `a.lis.Close()` (LIFO order of
the `defer` statements). -/
def Serve (steps : List AcceptStep) : List Effect × RunResult :=
  match (serveLoop steps).2 with
  | none => ((serveLoop steps).1, none)
  | some res =>
      ((serveLoop steps).1 ++ [Effect.ctxCancel, Effect.lisClose], some res)

/-- A step of an accept trace that does not terminate the loop: a successful
accept, or a failure observed with the root context live and classified
temporary. -/
def nonTerminating : AcceptStep → Bool
  | AcceptStep.conn _ => true
  | AcceptStep.fail ctxDone e => !ctxDone && e.classifiedTemporary

/-- One firing of the `select` in `Shutdown`'s drain loop, together with the
registry contents (connection ids, as `a.connDatas`'s key set) read under
`a.connDatasMu.RLock()` at that moment.  The registry is mutated concurrently
by the workers, so each observation carries its own snapshot. -/
inductive DrainObs where
  /-- `case <-time.After(5 * time.Millisecond)` fired. -/
  | tick (snapshot : List Nat)
  /-- `case <-ctx.Done()` fired (the caller's deadline context is done). -/
  | deadline (snapshot : List Nat)
deriving DecidableEq, Repr

/-- The `for`/`select` drain loop of `Shutdown` (accepter.go, lines 47–66).
`lisErr` is what `a.lis.Close()` returned, `ctxErr` what `ctx.Err()` returns
once the deadline context is done (non-nil by the `context` contract).  A
tick whose snapshot is empty returns `lisErr`; a tick with a non-empty
snapshot loops; the deadline case closes the underlying handle of every
connection in the snapshot (it deletes nothing from the registry) and
returns `ctxErr`. -/
def shutdownLoop (lisErr : Option GoErr) (ctxErr : GoErr) :
    List DrainObs → List Effect × RunResult
  | [] => ([], none)
  | DrainObs.tick snap :: rest =>
      if snap.isEmpty then ([Effect.sleepMs 5], some lisErr)
      else
        (Effect.sleepMs 5 :: (shutdownLoop lisErr ctxErr rest).1,
         (shutdownLoop lisErr ctxErr rest).2)
  | DrainObs.deadline snap :: _ =>
      (snap.map Effect.connClose, some (some ctxErr))

/-- `Shutdown(ctx)` (accepter.go, lines 44–67): `a.ctxCancel()`, then
`err = a.lis.Close()`, then the drain loop. -/
def Shutdown (lisErr : Option GoErr) (ctxErr : GoErr) (obs : List DrainObs) :
    List Effect × RunResult :=
  (Effect.ctxCancel :: Effect.lisClose :: (shutdownLoop lisErr ctxErr obs).1,
   (shutdownLoop lisErr ctxErr obs).2)

/-- `Close()` (accepter.go, lines 74–85): `a.ctxCancel()`, then
`err = a.lis.Close()`, then under `a.connDatasMu.RLock()` a `Close()` on
every registered connection's underlying handle, then return `err`.
`snapshot` is the registry's key set at the `RLock`; `lisErr` what
`a.lis.Close()` returned. -/
def Close (lisErr : Option GoErr) (snapshot : List Nat) :
    List Effect × Option GoErr :=
  (Effect.ctxCancel :: Effect.lisClose :: snapshot.map Effect.connClose,
   lisErr)

/-- The per-connection worker `serve(conn)` (accepter.go, lines 172–190), as
the effect sequence of its body for connection `c`: derive a child context
(its `cancel` deferred), insert the registry entry, invoke the handler, close
the connection, delete the registry entry, then the deferred `cancel()`. -/
def serve (c : Nat) : List Effect :=
  [Effect.childCtxNew c, Effect.regInsert c, Effect.handlerServe c,
   Effect.connClose c, Effect.regRemove c, Effect.childCtxCancel c]

/-- The outcome of `net.Listen("tcp", addr)`, supplied by the environment. -/
inductive ListenResult where
  | ok
  | fail (e : GoErr)
deriving DecidableEq, Repr

/-- `TCPListenAndServe(addr)` (accepter.go, lines 90–96): bind a TCP listener
to `addr`; a bind failure is returned at once, otherwise `Serve` runs on the
new listener with accept trace `steps`. -/
def TCPListenAndServe (listen : ListenResult) (steps : List AcceptStep) :
    List Effect × RunResult :=
  match listen with
  | ListenResult.fail e => ([], some (some e))
  | ListenResult.ok => Serve steps

/-- A `tls.Certificate` value: `zero` is the zero value that
`make([]tls.Certificate, 1)` fills the slice with (and that a failed
`tls.LoadX509KeyPair` returns), `loaded id` a certificate actually loaded
from a file pair. -/
inductive Cert where
  | zero
  | loaded (id : Nat)
deriving DecidableEq, Repr

/-- The fields of `tls.Config` that `ServeTLS` reads or writes:
`certificates` is `Certificates`, `getCertificate` whether
`GetCertificate != nil`. -/
structure TLSConfig where
  certificates : List Cert
  getCertificate : Bool
deriving DecidableEq, Repr

/-- `configHasCert := len(config.Certificates) > 0 || config.GetCertificate != nil`
(accepter.go, line 161). -/
def configHasCert (config : TLSConfig) : Bool :=
  !config.certificates.isEmpty || config.getCertificate

/-- The outcome of `tls.LoadX509KeyPair(certFile, keyFile)`, supplied by the
environment. -/
inductive LoadResult where
  | ok (id : Nat)
  | fail (e : GoErr)
deriving DecidableEq, Repr

/-- What a `ServeTLS` call leaves behind.  `callerConfig` is the object the
Accepter's `TLSConfig` field points to after the call (`none` when the field
is nil — `config := a.TLSConfig` aliases the caller's object, so in-place
writes through `config` are visible here); `served` is the configuration
handed to `tls.NewListener`, or `none` when `ServeTLS` returned before
reaching it; `result` and `effects` are as for `Serve`. -/
structure ServeTLSOutcome where
  callerConfig : Option TLSConfig
  served : Option TLSConfig
  effects : List Effect
  result : RunResult
deriving DecidableEq, Repr

/-- `ServeTLS(l, certFile, keyFile)` (accepter.go, lines 154–170).
`aCfg` is the target of `a.TLSConfig` (`none` for a nil field): when nil, a
fresh empty `tls.Config` is used and the caller's field stays nil.  When
`!configHasCert || certFile != "" || keyFile != ""`, the code first does
`config.Certificates = make([]tls.Certificate, 1)` (a slice holding one zero
certificate) and then assigns `config.Certificates[0]` from
`tls.LoadX509KeyPair`; both writes go through the shared pointer.  A load
failure is returned before `tls.NewListener`/`Serve`; otherwise `Serve` runs
on the wrapped listener with accept trace `steps`. -/
def ServeTLS (aCfg : Option TLSConfig) (certFile keyFile : String)
    (load : LoadResult) (steps : List AcceptStep) : ServeTLSOutcome :=
  let config := aCfg.getD { certificates := [], getCertificate := false }
  if !configHasCert config || certFile != "" || keyFile != "" then
    let config := { config with certificates := [Cert.zero] }
    match load with
    | LoadResult.fail e =>
        { callerConfig := aCfg.map fun _ => config
          served := none
          effects := []
          result := some (some e) }
    | LoadResult.ok id =>
        let config := { config with certificates := [Cert.loaded id] }
        { callerConfig := aCfg.map fun _ => config
          served := some config
          effects := (Serve steps).1
          result := (Serve steps).2 }
  else
    { callerConfig := aCfg
      served := some config
      effects := (Serve steps).1
      result := (Serve steps).2 }

/-- `TCPListenAndServeTLS(addr, certFile, keyFile)` (accepter.go, lines
107–113): bind a TCP listener to `addr`; a bind failure is returned at once
— `ServeTLS` never runs, so no configuration is touched or served and no
effect is produced — otherwise `ServeTLS` runs on the new listener with the
given file pair, loader outcome and accept trace. -/
def TCPListenAndServeTLS (aCfg : Option TLSConfig) (listen : ListenResult)
    (certFile keyFile : String) (load : LoadResult)
    (steps : List AcceptStep) : ServeTLSOutcome :=
  match listen with
  | ListenResult.fail e =>
      { callerConfig := aCfg
        served := none
        effects := []
        result := some (some e) }
  | ListenResult.ok => ServeTLS aCfg certFile keyFile load steps

/-- The error `Accept` yields on a listener that has already been closed: a
`*net.OpError` wrapping `net.ErrClosed`, hence a `net.Error` whose
`Temporary()` method returns `false`. -/
def errClosed : GoErr :=
  { id := 0, isNetError := true, temporary := false }

/-- The accept trace observed by a `Serve` call entered after a completed
`Shutdown` or `Close`: `Serve` installs a fresh, live root context at entry
(`context.WithCancel(context.Background())`, line 121), so the
`ctx.Done()` check in the loop sees a live context, and the first `Accept`
on the closed listener fails at once with `errClosed`. -/
def postShutdownSteps : List AcceptStep :=
  [AcceptStep.fail false errClosed]

/-- A drain-loop observation that keeps the loop running: a 5 ms tick whose
registry snapshot is non-empty. -/
def liveTick : DrainObs → Bool
  | DrainObs.tick s => !s.isEmpty
  | DrainObs.deadline _ => false

/- ## Basic lemmas -/

theorem Serve_snd (steps : List AcceptStep) :
    (Serve steps).2 = (serveLoop steps).2 := by
  unfold Serve
  cases h : (serveLoop steps).2 <;> simp [h]

theorem serveLoop_result_append (pre tail : List AcceptStep)
    (hpre : ∀ s ∈ pre, nonTerminating s = true) :
    (serveLoop (pre ++ tail)).2 = (serveLoop tail).2 := by
  induction pre with
  | nil => rfl
  | cons s pre ih =>
      have hs := hpre s (List.mem_cons_self _ _)
      have hrest : ∀ x ∈ pre, nonTerminating x = true :=
        fun x hx => hpre x (List.mem_cons_of_mem _ hx)
      cases s with
      | conn c => simpa [serveLoop] using ih hrest
      | fail ctxDone e =>
          simp [nonTerminating, Bool.and_eq_true, Bool.not_eq_true'] at hs
          obtain ⟨h1, h2⟩ := hs
          subst h1
          simpa [serveLoop, h2] using ih hrest

theorem serveLoop_surfaced_not_temporary (tr : List AcceptStep) (e : GoErr)
    (h : (serveLoop tr).2 = some (some e)) :
    e.classifiedTemporary = false := by
  induction tr with
  | nil => simp [serveLoop] at h
  | cons s rest ih =>
      cases s with
      | conn c =>
          simp [serveLoop] at h
          exact ih h
      | fail ctxDone e' =>
          by_cases hd : ctxDone = true
          · subst hd; simp [serveLoop] at h
          · replace hd : ctxDone = false := by
              cases ctxDone <;> simp_all
            subst hd
            by_cases ht : e'.classifiedTemporary = true
            · simp [serveLoop, ht] at h
              exact ih h
            · replace ht : e'.classifiedTemporary = false := by
                cases he : e'.classifiedTemporary <;> simp_all
              simp [serveLoop, ht] at h
              subst h
              exact ht

theorem shutdownLoop_liveTicks (lisErr : Option GoErr) (ctxErr : GoErr)
    (pre obs : List DrainObs)
    (hpre : ∀ o ∈ pre, liveTick o = true) :
    shutdownLoop lisErr ctxErr (pre ++ obs)
      = (List.replicate pre.length (Effect.sleepMs 5)
           ++ (shutdownLoop lisErr ctxErr obs).1,
         (shutdownLoop lisErr ctxErr obs).2) := by
  induction pre with
  | nil => simp
  | cons o pre ih =>
      have ho := hpre o (List.mem_cons_self _ _)
      have hrest : ∀ x ∈ pre, liveTick x = true :=
        fun x hx => hpre x (List.mem_cons_of_mem _ hx)
      cases o with
      | deadline s => simp [liveTick] at ho
      | tick s =>
          have hs : s.isEmpty = false := by
            simp [liveTick] at ho
            simpa using ho
          simp [shutdownLoop, hs, ih hrest, List.replicate_succ]

/- ## Claim theorems -/

/-- Claim C1: after any run of non-terminating accept iterations, an accept
failure observed with the root scope cancelled makes `Serve` return nil,
while an accept failure observed with the root scope live that is not
classified temporary makes `Serve` return that very error. -/
theorem serve_failure_disposition (pre rest : List AcceptStep) (e : GoErr)
    (hpre : ∀ s ∈ pre, nonTerminating s = true) :
    (Serve (pre ++ AcceptStep.fail true e :: rest)).2 = some none ∧
    (e.classifiedTemporary = false →
      (Serve (pre ++ AcceptStep.fail false e :: rest)).2 = some (some e)) := by
  constructor
  · rw [Serve_snd, serveLoop_result_append _ _ hpre]
    simp [serveLoop]
  · intro hperm
    rw [Serve_snd, serveLoop_result_append _ _ hpre]
    simp [serveLoop, hperm]

/-- Witness for the C1 theorem at a concrete trace: one accepted connection,
then a failure with the non-temporary error `⟨1, true, false⟩`. -/
theorem serve_failure_disposition_witness :
    (Serve ([AcceptStep.conn 0] ++
        AcceptStep.fail true ⟨1, true, false⟩ :: [])).2 = some none ∧
    (GoErr.classifiedTemporary ⟨1, true, false⟩ = false →
      (Serve ([AcceptStep.conn 0] ++
          AcceptStep.fail false ⟨1, true, false⟩ :: [])).2
        = some (some ⟨1, true, false⟩)) :=
  serve_failure_disposition [AcceptStep.conn 0] [] ⟨1, true, false⟩
    (by decide)

/-- Claim C6: an accept failure observed with the root scope live and
classified temporary makes the loop sleep 5 ms and retry; an error
classified temporary is never the result of `Serve`; and every failure not
so classified (root scope live) terminates the loop with that error as the
`Serve` result. -/
theorem serve_temporary_retry (e : GoErr) (rest tr : List AcceptStep)
    (htemp : e.classifiedTemporary = true) :
    serveLoop (AcceptStep.fail false e :: rest)
      = (Effect.sleepMs 5 :: (serveLoop rest).1, (serveLoop rest).2) ∧
    (∀ e', (Serve tr).2 = some (some e') → e'.classifiedTemporary = false) ∧
    (∀ e', e'.classifiedTemporary = false →
      (Serve (AcceptStep.fail false e' :: rest)).2 = some (some e')) := by
  refine ⟨by simp [serveLoop, htemp], ?_, ?_⟩
  · intro e' h
    rw [Serve_snd] at h
    exact serveLoop_surfaced_not_temporary tr e' h
  · intro e' h
    rw [Serve_snd]
    simp [serveLoop, h]

/-- Witness for the C6 theorem at the temporary error `⟨2, true, true⟩` and
empty continuation traces. -/
theorem serve_temporary_retry_witness :
    serveLoop (AcceptStep.fail false ⟨2, true, true⟩ :: [])
      = (Effect.sleepMs 5 :: (serveLoop []).1, (serveLoop []).2) ∧
    (∀ e', (Serve []).2 = some (some e') → e'.classifiedTemporary = false) ∧
    (∀ e', e'.classifiedTemporary = false →
      (Serve [AcceptStep.fail false e']).2 = some (some e')) :=
  serve_temporary_retry ⟨2, true, true⟩ [] [] (by decide)

/-- Counterexample to claim C8 as stated: a `Serve` call entered after
`Shutdown`/`Close` closed the listener returns the permanent accept error of
the closed listener, which is not the nil result the claim asserts. -/
theorem serve_after_shutdown_cex :
    (Serve postShutdownSteps).2 = some (some errClosed) ∧
    some (some errClosed) ≠ (some none : RunResult) := by
  constructor
  · rfl
  · simp

/-- Claim C8 (amended): a `Serve` call made after `Shutdown` or `Close` has
returned, on the now-closed listener, returns the permanent accept error of
the closed listener — a non-nil error — and never spawns a worker, so the
handler is not invoked again. -/
theorem serve_after_shutdown :
    Serve postShutdownSteps
      = ([Effect.ctxCancel, Effect.lisClose], some (some errClosed)) ∧
    (∀ c, Effect.spawnWorker c ∉ (Serve postShutdownSteps).1) ∧
    (∀ c, Effect.handlerServe c ∉ (Serve postShutdownSteps).1) := by
  refine ⟨rfl, ?_, ?_⟩ <;>
    intro c <;>
    simp [Serve, serveLoop, postShutdownSteps, errClosed,
      GoErr.classifiedTemporary]

/-- Claim C2: `Shutdown` first cancels the root scope, then closes the
listener, and only then polls the registry at 5 ms ticks — its effect trace
is exactly the cancellation, the listener close, and one 5 ms wait per poll —
and when a poll observes an empty registry before the deadline fires, the
result is the listener-close error `lisErr` (possibly nil). -/
theorem shutdown_drained (lisErr : Option GoErr) (ctxErr : GoErr)
    (pre : List DrainObs) (hpre : ∀ o ∈ pre, liveTick o = true) :
    Shutdown lisErr ctxErr (pre ++ [DrainObs.tick []])
      = (Effect.ctxCancel :: Effect.lisClose ::
           List.replicate (pre.length + 1) (Effect.sleepMs 5),
         some lisErr) := by
  have h := shutdownLoop_liveTicks lisErr ctxErr pre [DrainObs.tick []] hpre
  simp [Shutdown, h, shutdownLoop, List.replicate_succ']

/-- Witness for the C2 theorem: one non-empty poll (registry `[7]`), then an
empty poll; the listener-close error is `some ⟨3, false, false⟩`. -/
theorem shutdown_drained_witness :
    Shutdown (some ⟨3, false, false⟩) ⟨4, false, false⟩
        ([DrainObs.tick [7]] ++ [DrainObs.tick []])
      = (Effect.ctxCancel :: Effect.lisClose ::
           List.replicate 2 (Effect.sleepMs 5),
         some (some ⟨3, false, false⟩)) :=
  shutdown_drained (some ⟨3, false, false⟩) ⟨4, false, false⟩
    [DrainObs.tick [7]] (by decide)

/-- Claim C3: when the deadline context fires before the registry drains,
`Shutdown` closes the underlying handle of every connection still in the
registry snapshot, performs no registry insertion or removal at all, and
returns the deadline context's error `ctxErr` — not the listener-close
error. -/
theorem shutdown_deadline_expiry (lisErr : Option GoErr) (ctxErr : GoErr)
    (pre : List DrainObs) (snap : List Nat) (rest : List DrainObs)
    (hpre : ∀ o ∈ pre, liveTick o = true) :
    Shutdown lisErr ctxErr (pre ++ DrainObs.deadline snap :: rest)
      = (Effect.ctxCancel :: Effect.lisClose ::
           (List.replicate pre.length (Effect.sleepMs 5)
             ++ snap.map Effect.connClose),
         some (some ctxErr)) ∧
    (∀ c ∈ snap, Effect.connClose c
      ∈ (Shutdown lisErr ctxErr (pre ++ DrainObs.deadline snap :: rest)).1) ∧
    (∀ c, Effect.regRemove c
      ∉ (Shutdown lisErr ctxErr (pre ++ DrainObs.deadline snap :: rest)).1) ∧
    (∀ c, Effect.regInsert c
      ∉ (Shutdown lisErr ctxErr (pre ++ DrainObs.deadline snap :: rest)).1) := by
  have h := shutdownLoop_liveTicks lisErr ctxErr pre
    (DrainObs.deadline snap :: rest) hpre
  have hmain :
      Shutdown lisErr ctxErr (pre ++ DrainObs.deadline snap :: rest)
        = (Effect.ctxCancel :: Effect.lisClose ::
             (List.replicate pre.length (Effect.sleepMs 5)
               ++ snap.map Effect.connClose),
           some (some ctxErr)) := by
    simp [Shutdown, h, shutdownLoop]
  refine ⟨hmain, ?_, ?_, ?_⟩
  · intro c hc
    rw [hmain]
    refine List.mem_cons_of_mem _ (List.mem_cons_of_mem _ ?_)
    exact List.mem_append_right _ (List.mem_map_of_mem _ hc)
  · intro c
    rw [hmain]
    simp [List.mem_replicate, List.mem_map]
  · intro c
    rw [hmain]
    simp [List.mem_replicate, List.mem_map]

/-- Witness for the C3 theorem: one non-empty poll, then the deadline fires
with connections 1 and 2 still registered. -/
theorem shutdown_deadline_expiry_witness :
    Shutdown none ⟨4, false, false⟩
        ([DrainObs.tick [1]] ++ DrainObs.deadline [1, 2] :: [])
      = (Effect.ctxCancel :: Effect.lisClose ::
           (List.replicate 1 (Effect.sleepMs 5)
             ++ [1, 2].map Effect.connClose),
         some (some ⟨4, false, false⟩)) ∧
    (∀ c ∈ [1, 2], Effect.connClose c
      ∈ (Shutdown none ⟨4, false, false⟩
          ([DrainObs.tick [1]] ++ DrainObs.deadline [1, 2] :: [])).1) ∧
    (∀ c, Effect.regRemove c
      ∉ (Shutdown none ⟨4, false, false⟩
          ([DrainObs.tick [1]] ++ DrainObs.deadline [1, 2] :: [])).1) ∧
    (∀ c, Effect.regInsert c
      ∉ (Shutdown none ⟨4, false, false⟩
          ([DrainObs.tick [1]] ++ DrainObs.deadline [1, 2] :: [])).1) :=
  shutdown_deadline_expiry none ⟨4, false, false⟩
    [DrainObs.tick [1]] [1, 2] [] (by decide)

/-- Claim C5: `Close` returns exactly the listener-close error, its effect
trace is the root-scope cancellation, then the listener close, then a close
of every registered connection's underlying handle — with no waiting (no
sleep effect) and no registry mutation. -/
theorem close_immediate (lisErr : Option GoErr) (snapshot : List Nat) :
    (Close lisErr snapshot).2 = lisErr ∧
    (Close lisErr snapshot).1
      = Effect.ctxCancel :: Effect.lisClose ::
          snapshot.map Effect.connClose ∧
    (∀ c ∈ snapshot, Effect.connClose c ∈ (Close lisErr snapshot).1) ∧
    (∀ n, Effect.sleepMs n ∉ (Close lisErr snapshot).1) ∧
    (∀ c, Effect.regRemove c ∉ (Close lisErr snapshot).1) := by
  refine ⟨rfl, rfl, ?_, ?_, ?_⟩
  · intro c hc
    exact List.mem_cons_of_mem _
      (List.mem_cons_of_mem _ (List.mem_map_of_mem _ hc))
  · intro n
    simp [Close, List.mem_map]
  · intro c
    simp [Close, List.mem_map]

/-- Counterexample to claim C4 as stated: for connection 0, the worker does
not remove the registry entry before the connection is closed — the
`conn.Close()` effect precedes the registry removal in the worker's body. -/
theorem serve_worker_remove_before_close_cex :
    ¬ ((serve 0).indexOf (Effect.regRemove 0)
        < (serve 0).indexOf (Effect.connClose 0)) := by
  decide

/-- Claim C4 (amended): the worker inserts the registry entry after accept
and before invoking the handler, and removes it immediately after the
connection is closed, which itself happens immediately after the handler
returns; so an entry exists exactly from just before the handler invocation
until just after the post-handler close of the connection. -/
theorem serve_worker_order (c : Nat) :
    serve c = [Effect.childCtxNew c, Effect.regInsert c,
      Effect.handlerServe c, Effect.connClose c, Effect.regRemove c,
      Effect.childCtxCancel c] ∧
    (serve c).indexOf (Effect.regInsert c)
      < (serve c).indexOf (Effect.handlerServe c) ∧
    (serve c).indexOf (Effect.handlerServe c)
      < (serve c).indexOf (Effect.connClose c) ∧
    (serve c).indexOf (Effect.connClose c)
      < (serve c).indexOf (Effect.regRemove c) := by
  refine ⟨rfl, ?_, ?_, ?_⟩ <;>
    simp [serve, List.indexOf_cons]

/-- Claim C9: a bind failure in either listen-and-serve entry point,
`TCPListenAndServe` or `TCPListenAndServeTLS`, is returned immediately: the
result is the bind error, no effect is produced, no worker is spawned and
the handler is never invoked; in the TLS variant no configuration is served
and the caller's configuration is left untouched. -/
theorem listenAndServe_bind_failure (e : GoErr) (steps : List AcceptStep)
    (aCfg : Option TLSConfig) (cf kf : String) (load : LoadResult) :
    TCPListenAndServe (ListenResult.fail e) steps = ([], some (some e)) ∧
    (∀ c, Effect.spawnWorker c
      ∉ (TCPListenAndServe (ListenResult.fail e) steps).1) ∧
    (∀ c, Effect.handlerServe c
      ∉ (TCPListenAndServe (ListenResult.fail e) steps).1) ∧
    TCPListenAndServeTLS aCfg (ListenResult.fail e) cf kf load steps
      = ⟨aCfg, none, [], some (some e)⟩ ∧
    (∀ c, Effect.spawnWorker c
      ∉ (TCPListenAndServeTLS aCfg (ListenResult.fail e) cf kf load
          steps).effects) ∧
    (∀ c, Effect.handlerServe c
      ∉ (TCPListenAndServeTLS aCfg (ListenResult.fail e) cf kf load
          steps).effects) := by
  refine ⟨rfl, ?_, ?_, rfl, ?_, ?_⟩ <;>
    intro c <;>
    simp [TCPListenAndServe, TCPListenAndServeTLS]

/-- Claim C7: `ServeTLS` uses the TLS configuration unchanged exactly when
it already carries certificate material and both file arguments are empty;
in every other case it loads the file pair and installs the loaded
certificate as the sole static certificate before serving, and a load
failure is returned with no effect — `Serve` is never entered. -/
theorem serveTLS_certificate_selection (aCfg : Option TLSConfig)
    (cf kf : String) (id : Nat) (e : GoErr) (steps : List AcceptStep) :
    (∀ config, aCfg = some config → configHasCert config = true →
      cf = "" → kf = "" →
      ∀ load, ServeTLS aCfg cf kf load steps
        = ⟨some config, some config, (Serve steps).1, (Serve steps).2⟩) ∧
    ((configHasCert (aCfg.getD ⟨[], false⟩) = false ∨ cf ≠ "" ∨ kf ≠ "") →
      ServeTLS aCfg cf kf (LoadResult.ok id) steps
        = ⟨aCfg.map fun c => { c with certificates := [Cert.loaded id] },
           some { aCfg.getD ⟨[], false⟩ with
                    certificates := [Cert.loaded id] },
           (Serve steps).1, (Serve steps).2⟩) ∧
    ((configHasCert (aCfg.getD ⟨[], false⟩) = false ∨ cf ≠ "" ∨ kf ≠ "") →
      ServeTLS aCfg cf kf (LoadResult.fail e) steps
        = ⟨aCfg.map fun c => { c with certificates := [Cert.zero] },
           none, [], some (some e)⟩) := by
  refine ⟨?_, ?_, ?_⟩
  · rintro config rfl hcert rfl rfl load
    simp [ServeTLS, hcert]
  · intro hbr
    have hcond :
        (!configHasCert (aCfg.getD ⟨[], false⟩) || cf != "" || kf != "")
          = true := by
      rcases hbr with h | h | h <;> simp [h]
    cases aCfg with
    | none =>
        have hcond' :
            (!configHasCert ⟨[], false⟩ || cf != "" || kf != "") = true :=
          hcond
        simp [ServeTLS, hcond']
    | some config =>
        have hcond' :
            (!configHasCert config || cf != "" || kf != "") = true := hcond
        simp [ServeTLS, hcond']
  · intro hbr
    have hcond :
        (!configHasCert (aCfg.getD ⟨[], false⟩) || cf != "" || kf != "")
          = true := by
      rcases hbr with h | h | h <;> simp [h]
    cases aCfg with
    | none =>
        have hcond' :
            (!configHasCert ⟨[], false⟩ || cf != "" || kf != "") = true :=
          hcond
        simp [ServeTLS, hcond']
    | some config =>
        have hcond' :
            (!configHasCert config || cf != "" || kf != "") = true := hcond
        simp [ServeTLS, hcond']

/-- Claim C10: when the Accepter's TLS configuration is non-nil and the
load-from-files branch is taken, the caller-supplied configuration object
itself ends the call with the single loaded certificate as its certificate
list, and the configuration handed to the TLS listener is that very object,
not a copy. -/
theorem serveTLS_mutates_caller_config (config : TLSConfig)
    (cf kf : String) (id : Nat) (steps : List AcceptStep)
    (hbranch : configHasCert config = false ∨ cf ≠ "" ∨ kf ≠ "") :
    (ServeTLS (some config) cf kf (LoadResult.ok id) steps).callerConfig
      = some { config with certificates := [Cert.loaded id] } ∧
    (ServeTLS (some config) cf kf (LoadResult.ok id) steps).served
      = (ServeTLS (some config) cf kf (LoadResult.ok id) steps).callerConfig
    := by
  have hcond : (!configHasCert config || cf != "" || kf != "") = true := by
    rcases hbranch with h | h | h <;> simp [h]
  constructor <;> simp [ServeTLS, hcond]

/-- Witness for the C10 theorem: an empty configuration (no certificate
material), empty file names, certificate id 5. -/
theorem serveTLS_mutates_caller_config_witness :
    (ServeTLS (some ⟨[], false⟩) "" "" (LoadResult.ok 5) []).callerConfig
      = some { certificates := [Cert.loaded 5], getCertificate := false } ∧
    (ServeTLS (some ⟨[], false⟩) "" "" (LoadResult.ok 5) []).served
      = (ServeTLS (some ⟨[], false⟩) "" "" (LoadResult.ok 5) []).callerConfig
    :=
  serveTLS_mutates_caller_config ⟨[], false⟩ "" "" 5 []
    (Or.inl (by decide))

end Accepter
